import Mathlib

/-!
Shallow embedding of the beacon-app gateway supervisor
(src-tauri/src/lib.rs, src-tauri/src/gateway.rs, src-tauri/src/commands.rs).

Pure data manipulation is translated directly; effectful inputs (the
filesystem, network probes, process spawning, child-process status polling)
are passed in explicitly as environment parameters, and each operation is a
function from the shared application state to the updated state together
with its return value.
-/

namespace BeaconApp

/-- Gateway connection state (lib.rs, enum GatewayState). -/
inductive GatewayState where
  | Disconnected
  | Starting
  | Connected (url : String) (is_sidecar : Bool)
  | Failed (error : String)
  deriving Repr, DecidableEq

/-- Handle of a spawned child process (std::process::Child); only the pid is
observable to the supervisor logic we model. -/
structure Child where
  pid : Nat
  deriving Repr, DecidableEq

/-- Shared application state (lib.rs, struct AppState). The RwLocks are
erased: every operation is modelled as a sequential state transformer. -/
structure AppState where
  gateway_state : GatewayState
  gateway_url : Option String
  sidecar_process : Option Child
  data_dir : String
  deriving Repr, DecidableEq

/-- Initial application state built in lib.rs run(): Disconnected, the
default gateway url stored as configured, no child process. -/
def initial_state (defaultUrl : String) (dataDir : String) : AppState :=
  { gateway_state := GatewayState.Disconnected
    gateway_url := some defaultUrl
    sidecar_process := none
    data_dir := dataDir }

/-! ### Binary locator (gateway.rs, find_gateway_binary) -/

/-- Filesystem and environment inputs consumed by find_gateway_binary:
the BEACON_GATEWAY_PATH override (some means the variable is set), the
directory of the current executable (some means current_exe resolved and
had a parent), the set of paths that exist on disk, and the outcome of
running the system search (some out means the search command succeeded,
with out its trimmed standard output). -/
structure FS where
  override : Option String
  exeDir : Option String
  onDisk : List String
  whichOut : Option String

/-- Disk existence test used by the locator. -/
def pathExists (fs : FS) (p : String) : Bool :=
  fs.onDisk.contains p

/-- Sidecar candidate paths relative to the app executable directory, in the
order the source lists them. -/
def sidecar_candidate_paths (dir : String) : List String :=
  [dir ++ "/beacon-gateway",
   dir ++ "/beacon",
   dir ++ "/../Resources/beacon-gateway",
   dir ++ "/../Resources/beacon"]

/-- Development build output paths, in the order the source lists them. -/
def dev_paths : List String :=
  ["../../beacon-gateway/target/debug/beacon",
   "../../beacon-gateway/target/release/beacon",
   "../../../services/beacon-gateway/target/debug/beacon",
   "../../../services/beacon-gateway/target/release/beacon"]

/-- Step 4 of the locator: development build locations, else the not-found
error. -/
def find_dev_step (fs : FS) : Except String String :=
  match dev_paths.find? (pathExists fs) with
  | some p => Except.ok p
  | none => Except.error "beacon-gateway binary not found"

/-- Step 3 of the locator: the system search for the well-known binary name;
accepted when the command succeeded with nonempty trimmed output (no disk
existence check on this branch, as in the source). -/
def find_which_step (fs : FS) : Except String String :=
  match fs.whichOut with
  | some out => if out = "" then find_dev_step fs else Except.ok out
  | none => find_dev_step fs

/-- Step 2 of the locator: candidate paths next to the app executable. -/
def find_sidecar_step (fs : FS) : Except String String :=
  match fs.exeDir with
  | some dir =>
    match (sidecar_candidate_paths dir).find? (pathExists fs) with
    | some c => Except.ok c
    | none => find_which_step fs
  | none => find_which_step fs

/-- Locator entry point (gateway.rs, find_gateway_binary): the override is
accepted only if it exists on disk, then the sidecar-relative candidates,
then the system search, then the development build paths. -/
def find_gateway_binary (fs : FS) : Except String String :=
  match fs.override with
  | some p => if pathExists fs p then Except.ok p else find_sidecar_step fs
  | none => find_sidecar_step fs

/-! ### Health prober (gateway.rs, probe_gateway) -/

/-- Outcome of the single HTTP GET: a response with a status code, or any
network error / timeout. -/
inductive HttpResult where
  | response (status : Nat)
  | failure
  deriving Repr, DecidableEq

/-- Success statuses in the sense of reqwest StatusCode::is_success. -/
def status_is_success (st : Nat) : Bool :=
  200 ≤ st && st ≤ 299

/-- Health probe (gateway.rs, probe_gateway): build the client (clientOk
models whether Client::builder().build() succeeded), issue one GET to the
/health path under the url, and report true exactly on a success status.
The http parameter maps each request url to its outcome. -/
def probe_gateway (http : String → HttpResult) (clientOk : Bool) (url : String) : Bool :=
  if clientOk then
    match http (url ++ "/health") with
    | HttpResult.response st => status_is_success st
    | HttpResult.failure => false
  else false

/-! ### Readiness waiter (gateway.rs, wait_for_gateway) -/

/-- Loop body of wait_for_gateway, probe attempts indexed from 0, attempt n
occurring at elapsed time n * 100 milliseconds (the fixed 100ms check
interval); the loop runs while the elapsed time is below the timeout. The
fuel argument only bounds the recursion and is chosen large enough that the
fuel-exhausted branch is never taken from the entry point. -/
def wait_go (probe : Nat → Bool) (timeoutMs : Nat) : Nat → Nat → Bool
  | 0, _ => false
  | fuel + 1, n =>
    if n * 100 < timeoutMs then
      if probe n then true else wait_go probe timeoutMs fuel (n + 1)
    else false

/-- Readiness waiter (gateway.rs, wait_for_gateway): poll the probe every
100ms until success or until the elapsed time reaches the timeout. -/
def wait_for_gateway (probe : Nat → Bool) (timeoutMs : Nat) : Bool :=
  wait_go probe timeoutMs (timeoutMs / 100 + 1) 0

/-- GATEWAY_STARTUP_TIMEOUT from gateway.rs, in milliseconds. -/
def GATEWAY_STARTUP_TIMEOUT_MS : Nat := 10000

/-! ### Shutdown controller (gateway.rs, stop_sidecar) -/

/-- Shutdown (gateway.rs, stop_sidecar): take the stored handle; when one was
present, signal / force-kill / reap the process (modelled by the returned
Bool, true exactly when a termination sequence ran); in every case finish
with the state set to Disconnected. -/
def stop_sidecar (s : AppState) : AppState × Bool :=
  match s.sidecar_process with
  | some _ =>
    ({ s with sidecar_process := none, gateway_state := GatewayState.Disconnected }, true)
  | none =>
    ({ s with gateway_state := GatewayState.Disconnected }, false)

/-! ### Sidecar bring-up (gateway.rs, start_sidecar) -/

/-- Fixed local address a freshly spawned sidecar listens on. -/
def sidecar_url : String := "http://localhost:18790"

/-- Sidecar bring-up (gateway.rs, start_sidecar). Environment inputs: fs for
the binary locator, spawnRes for the outcome of Command::spawn at the located
path (error side carries the OS error text), probes for the sequence of
readiness-probe outcomes consumed by wait_for_gateway. Sets the state to
Starting; propagates a locator failure as is; wraps a spawn failure message;
on spawn success stores the handle, waits for readiness, and either records
Connected{sidecar_url, is_sidecar = true} or cleans up via stop_sidecar and
records the startup-timeout failure. -/
def start_sidecar (fs : FS) (spawnRes : Except String Child) (probes : Nat → Bool)
    (s : AppState) : AppState × Except String Unit :=
  let s1 := { s with gateway_state := GatewayState.Starting }
  match find_gateway_binary fs with
  | Except.error e => (s1, Except.error e)
  | Except.ok _ =>
    match spawnRes with
    | Except.error e => (s1, Except.error ("failed to start gateway: " ++ e))
    | Except.ok child =>
      let s2 := { s1 with sidecar_process := some child }
      if wait_for_gateway probes GATEWAY_STARTUP_TIMEOUT_MS then
        ({ s2 with gateway_state := GatewayState.Connected sidecar_url true }, Except.ok ())
      else
        let s3 := (stop_sidecar s2).1
        ({ s3 with gateway_state := GatewayState.Failed "gateway failed to start within timeout" },
         Except.error "gateway failed to start within timeout")

/-! ### Auto-connect at application start (gateway.rs, auto_connect) -/

/-- Auto-connect (gateway.rs, auto_connect): when a configured url is present
and probes healthy, record Connected{url, is_sidecar = false}; otherwise run
sidecar bring-up and, when it fails, record Failed with its error. The probe
parameter is the composed outcome of probe_gateway per url. -/
def auto_connect (probe : String → Bool) (fs : FS) (spawnRes : Except String Child)
    (probes : Nat → Bool) (s : AppState) : AppState :=
  let viaSidecar : AppState :=
    match start_sidecar fs spawnRes probes s with
    | (s1, Except.ok _) => s1
    | (s1, Except.error e) => { s1 with gateway_state := GatewayState.Failed e }
  match s.gateway_url with
  | some url =>
    if probe url then
      { s with gateway_state := GatewayState.Connected url false }
    else viaSidecar
  | none => viaSidecar

/-! ### IPC commands (commands.rs) -/

/-- Status snapshot returned over IPC (commands.rs, struct GatewayStatus). -/
structure GatewayStatus where
  state : String
  url : Option String
  is_sidecar : Bool
  error : Option String
  deriving Repr, DecidableEq

/-- Status query (commands.rs, get_gateway_status): a pure read of the
current gateway state. -/
def get_gateway_status (s : AppState) : GatewayStatus :=
  match s.gateway_state with
  | GatewayState.Disconnected =>
    { state := "disconnected", url := none, is_sidecar := false, error := none }
  | GatewayState.Starting =>
    { state := "starting", url := none, is_sidecar := true, error := none }
  | GatewayState.Connected url is_sidecar =>
    { state := "connected", url := some url, is_sidecar := is_sidecar, error := none }
  | GatewayState.Failed e =>
    { state := "failed", url := none, is_sidecar := false, error := some e }

/-- Start command (commands.rs, start_gateway). The request is
Option StartGatewayRequest with an Option url field, flattened exactly as
the source does with unwrap_or. With an explicit url: probe it; on success
record Connected{url, is_sidecar = false}, persist the url as configured,
and return the connected status; on failure return an error and touch
nothing. Without one: run sidecar bring-up, propagating its error, and on
success return the fresh status snapshot. -/
def start_gateway (probe : String → Bool) (fs : FS) (spawnRes : Except String Child)
    (probes : Nat → Bool) (request : Option (Option String)) (s : AppState) :
    AppState × Except String GatewayStatus :=
  let requrl : Option String :=
    match request with
    | none => none
    | some u => u
  match requrl with
  | some url =>
    if probe url then
      let s1 := { s with gateway_state := GatewayState.Connected url false,
                         gateway_url := some url }
      (s1, Except.ok { state := "connected", url := some url, is_sidecar := false, error := none })
    else
      (s, Except.error ("failed to connect to gateway at " ++ url))
  | none =>
    match start_sidecar fs spawnRes probes s with
    | (s1, Except.ok _) => (s1, Except.ok (get_gateway_status s1))
    | (s1, Except.error e) => (s1, Except.error e)

/-- Stop command (commands.rs, stop_gateway): run stop_sidecar and always
report success. -/
def stop_gateway (s : AppState) : AppState × Except String Unit :=
  ((stop_sidecar s).1, Except.ok ())

/-! ### Health monitor (gateway.rs, monitor_sidecar) -/

/-- Outcome of Child::try_wait on the stored handle: the process exited with
a status, is still running, or the status query itself errored. -/
inductive TryWait where
  | exited (status : Int)
  | running
  | errored (msg : String)
  deriving Repr, DecidableEq

/-- Error text recorded when the monitored process exited (the Debug
rendering of the exit status is abstracted as its numeric code). -/
def exit_error_text (status : Int) : String :=
  "gateway exited with status: " ++ toString status

/-- One iteration of the health-monitor loop body (gateway.rs,
monitor_sidecar): only in state Connected{url, is_sidecar = true} and only
when the probe of url fails does it inspect the stored handle; when try_wait
reports an exit it clears the handle, records Failed with the exit status,
and re-runs sidecar bring-up discarding its result; when the process is
still running, or try_wait errors, or no handle is stored, it changes
nothing. -/
def monitor_sidecar_tick (probe : String → Bool) (tw : TryWait) (fs : FS)
    (spawnRes : Except String Child) (probes : Nat → Bool) (s : AppState) : AppState :=
  match s.gateway_state with
  | GatewayState.Connected url true =>
    if probe url then s
    else
      match s.sidecar_process with
      | some _ =>
        match tw with
        | TryWait.exited status =>
          let s1 := { s with sidecar_process := none,
                             gateway_state := GatewayState.Failed (exit_error_text status) }
          (start_sidecar fs spawnRes probes s1).1
        | TryWait.running => s
        | TryWait.errored _ => s
      | none => s
  | _ => s

/-! ### Sequences of start and stop operations -/

/-- One externally issued operation: a start command with its environment
inputs and request, or a stop command. -/
inductive Op where
  | start (probe : String → Bool) (fs : FS) (spawnRes : Except String Child)
      (probes : Nat → Bool) (request : Option (Option String))
  | stop

/-- State effect of one operation. -/
def step (s : AppState) : Op → AppState
  | Op.start probe fs spawnRes probes request =>
    (start_gateway probe fs spawnRes probes request s).1
  | Op.stop => (stop_gateway s).1

/-- State after a sequence of operations. -/
def run (s : AppState) (ops : List Op) : AppState :=
  ops.foldl step s

/-- Handle/state invariant: a child handle is held only outside
Disconnected, and the Connected{is_sidecar = true} state always holds a
handle. -/
def handle_state_invariant (s : AppState) : Bool :=
  (!s.sidecar_process.isSome ||
    (match s.gateway_state with
     | GatewayState.Disconnected => false
     | _ => true)) &&
  (match s.gateway_state with
   | GatewayState.Connected _ true => s.sidecar_process.isSome
   | _ => true)

/-! ### Spec-side locator priority (for the refinement comparison of C6) -/

/-- Modelled from the spec: the override candidate, accepted only if it
exists on disk. -/
def override_candidate (fs : FS) : Option String :=
  match fs.override with
  | some p => if pathExists fs p then some p else none
  | none => none

/-- Modelled from the spec: the first existing sidecar-relative candidate. -/
def sidecar_candidate (fs : FS) : Option String :=
  match fs.exeDir with
  | some dir => (sidecar_candidate_paths dir).find? (pathExists fs)
  | none => none

/-- Modelled from the spec: the system-search candidate (a successful search
with nonempty output). -/
def which_candidate (fs : FS) : Option String :=
  match fs.whichOut with
  | some out => if out = "" then none else some out
  | none => none

/-- Modelled from the spec: the first existing development build candidate. -/
def dev_candidate (fs : FS) : Option String :=
  dev_paths.find? (pathExists fs)

/-- First defined entry of a list of optional candidates. -/
def first_candidate : List (Option String) → Option String
  | [] => none
  | some p :: _ => some p
  | none :: rest => first_candidate rest

/-- Modelled from the priority contract of the spec: the first candidate found in
the order override, sidecar-relative, system search, development builds. -/
def locate_spec (fs : FS) : Option String :=
  first_candidate
    [override_candidate fs, sidecar_candidate fs, which_candidate fs, dev_candidate fs]

/-- Connected-sidecar test on the gateway state, read off the guard of the monitor. -/
def is_sidecar_connected : GatewayState → Bool
  | GatewayState.Connected _ true => true
  | _ => false

/-! ### Concrete inputs used by witnesses and counterexamples -/

/-- Concrete filesystem with nothing available: no override, no resolvable
executable directory, nothing on disk, failing system search. -/
def fs_empty : FS :=
  { override := none, exeDir := none, onDisk := [], whichOut := none }

/-- Concrete filesystem on which only the override path exists. -/
def fs_gw : FS :=
  { override := some "/gw", exeDir := none, onDisk := ["/gw"], whichOut := none }

/-- Concrete filesystem on which the override, a sidecar-relative candidate
and a development candidate all exist at once. -/
def fs_all_exist : FS :=
  { override := some "/opt/override/beacon"
    exeDir := some "/app/bin"
    onDisk := ["/opt/override/beacon", "/app/bin/beacon-gateway",
               "../../beacon-gateway/target/debug/beacon"]
    whichOut := none }

/-- Concrete freshly started application state. -/
def demo_state : AppState :=
  initial_state "http://localhost:18790" "/data"

/-- Concrete state of a supervisor connected to its own sidecar. -/
def monitored_state : AppState :=
  { gateway_state := GatewayState.Connected "http://localhost:18790" true
    gateway_url := some "http://localhost:18790"
    sidecar_process := some { pid := 3 }
    data_dir := "/data" }

/-- Concrete operation sequence: a successful sidecar start followed by a
successful explicit external connect. -/
def external_connect_ops : List Op :=
  [Op.start (fun _ => true) fs_gw (Except.ok { pid := 7 }) (fun _ => true) none,
   Op.start (fun _ => true) fs_gw (Except.ok { pid := 8 }) (fun _ => true)
     (some (some "http://external:9999"))]

/-! ## Theorems -/

/-- C5: stop always ends with state Disconnected and the handle cleared, for
every starting state; it performs a process termination exactly when a
handle was held (so none when no handle is held); a second call returns the
same Disconnected end state (and performs no termination); and the stop
command always reports success. -/
theorem stop_sidecar_contract (s : AppState) :
    (stop_sidecar s).1.gateway_state = GatewayState.Disconnected ∧
    (stop_sidecar s).1.sidecar_process = none ∧
    (stop_sidecar s).2 = s.sidecar_process.isSome ∧
    stop_sidecar (stop_sidecar s).1 = ((stop_sidecar s).1, false) ∧
    stop_gateway s = ((stop_sidecar s).1, Except.ok ()) := by
  cases h : s.sidecar_process <;> simp [stop_sidecar, stop_gateway, h]

/-- C9: the health probe returns true exactly when the client was built and
the single request to the /health path under the address received a response
with a success status; every network error, timeout, or non-success status
yields false. -/
theorem probe_gateway_iff (http : String → HttpResult) (clientOk : Bool) (url : String) :
    probe_gateway http clientOk url = true ↔
      clientOk = true ∧
        ∃ st, http (url ++ "/health") = HttpResult.response st ∧ status_is_success st = true := by
  cases clientOk with
  | false => simp [probe_gateway]
  | true =>
    cases h : http (url ++ "/health") with
    | response st => simp [probe_gateway, h]
    | failure => simp [probe_gateway, h]

/-- C10: the status snapshot has is_sidecar true in Starting, false in
Disconnected and Failed, and equal to the stored flag in Connected; its url
field is present exactly in Connected, and its error field is present
exactly in Failed. -/
theorem get_gateway_status_fields (s : AppState) :
    (get_gateway_status s).is_sidecar =
      (match s.gateway_state with
       | GatewayState.Starting => true
       | GatewayState.Connected _ b => b
       | _ => false) ∧
    (get_gateway_status s).url.isSome =
      (match s.gateway_state with
       | GatewayState.Connected _ _ => true
       | _ => false) ∧
    (get_gateway_status s).error.isSome =
      (match s.gateway_state with
       | GatewayState.Failed _ => true
       | _ => false) := by
  cases h : s.gateway_state <;> simp [get_gateway_status, h]

/-- Step 4 of the locator, rephrased through its candidate. -/
lemma find_dev_step_eq (fs : FS) :
    find_dev_step fs =
      match dev_candidate fs with
      | some p => Except.ok p
      | none => Except.error "beacon-gateway binary not found" := rfl

/-- Step 3 of the locator, rephrased through its candidate. -/
lemma find_which_step_eq (fs : FS) :
    find_which_step fs =
      match which_candidate fs with
      | some p => Except.ok p
      | none => find_dev_step fs := by
  unfold find_which_step which_candidate
  cases fs.whichOut with
  | none => rfl
  | some out => by_cases h : out = "" <;> simp [h]

/-- Step 2 of the locator, rephrased through its candidate. -/
lemma find_sidecar_step_eq (fs : FS) :
    find_sidecar_step fs =
      match sidecar_candidate fs with
      | some p => Except.ok p
      | none => find_which_step fs := by
  unfold find_sidecar_step sidecar_candidate
  cases fs.exeDir with
  | none => rfl
  | some dir => cases h : (sidecar_candidate_paths dir).find? (pathExists fs) <;> simp [h]

/-- Step 1 of the locator, rephrased through its candidate. -/
lemma find_gateway_binary_eq (fs : FS) :
    find_gateway_binary fs =
      match override_candidate fs with
      | some p => Except.ok p
      | none => find_sidecar_step fs := by
  unfold find_gateway_binary override_candidate
  cases fs.override with
  | none => rfl
  | some p => by_cases h : pathExists fs p = true <;> simp [h]

/-- C6: the locator returns exactly the first candidate in the priority
order override, sidecar-relative, system search, development builds; in
particular an existing override path is returned even when later candidates
also exist, and when no candidate exists the not-found error is produced. -/
theorem find_gateway_binary_priority (fs : FS) :
    (find_gateway_binary fs =
       match locate_spec fs with
       | some p => Except.ok p
       | none => Except.error "beacon-gateway binary not found") ∧
    (∀ p, fs.override = some p → pathExists fs p = true →
       find_gateway_binary fs = Except.ok p) ∧
    (locate_spec fs = none →
       find_gateway_binary fs = Except.error "beacon-gateway binary not found") := by
  have hmain : find_gateway_binary fs =
      match locate_spec fs with
      | some p => Except.ok p
      | none => Except.error "beacon-gateway binary not found" := by
    rw [find_gateway_binary_eq]
    unfold locate_spec
    cases h1 : override_candidate fs with
    | some p => simp [first_candidate]
    | none =>
      rw [find_sidecar_step_eq]
      cases h2 : sidecar_candidate fs with
      | some p => simp [first_candidate]
      | none =>
        rw [find_which_step_eq]
        cases h3 : which_candidate fs with
        | some p => simp [first_candidate]
        | none =>
          rw [find_dev_step_eq]
          cases h4 : dev_candidate fs <;> simp [first_candidate]
  refine ⟨hmain, ?_, ?_⟩
  · intro p hov hex
    simp [find_gateway_binary, hov, hex]
  · intro hnone
    rw [hmain, hnone]

/-- Witness for C6: on fs_all_exist the override path exists and is
returned ahead of the other existing candidates. -/
theorem find_gateway_binary_priority_witness :
    pathExists fs_all_exist "/opt/override/beacon" = true ∧
      find_gateway_binary fs_all_exist = Except.ok "/opt/override/beacon" :=
  ⟨by decide,
   (find_gateway_binary_priority fs_all_exist).2.1 "/opt/override/beacon" rfl (by decide)⟩

/-- Loop characterization of the readiness waiter: with enough fuel, the
loop started at attempt n succeeds exactly when some attempt at or after n
falls strictly inside the timeout window and its probe succeeds. -/
lemma wait_go_iff (probe : Nat → Bool) (t : Nat) :
    ∀ fuel n, t ≤ (n + fuel) * 100 →
      (wait_go probe t fuel n = true ↔ ∃ m, n ≤ m ∧ m * 100 < t ∧ probe m = true) := by
  intro fuel
  induction fuel with
  | zero =>
    intro n hb
    constructor
    · intro h
      exact absurd h (by simp [wait_go])
    · rintro ⟨m, hnm, hmt, -⟩
      exfalso
      omega
  | succ fuel ih =>
    intro n hb
    have hb1 : t ≤ (n + 1 + fuel) * 100 := by omega
    constructor
    · intro h
      simp only [wait_go] at h
      by_cases hn : n * 100 < t
      · rw [if_pos hn] at h
        by_cases hp : probe n = true
        · exact ⟨n, Nat.le_refl n, hn, hp⟩
        · rw [if_neg hp] at h
          rcases (ih (n + 1) hb1).mp h with ⟨m, h1, h2, h3⟩
          exact ⟨m, by omega, h2, h3⟩
      · rw [if_neg hn] at h
        cases h
    · rintro ⟨m, hnm, hmt, hpm⟩
      have hn : n * 100 < t := by omega
      simp only [wait_go]
      rw [if_pos hn]
      by_cases hp : probe n = true
      · rw [if_pos hp]
      · rw [if_neg hp]
        apply (ih (n + 1) hb1).mpr
        have hnm1 : n + 1 ≤ m := by
          rcases Nat.eq_or_lt_of_le hnm with heq | hlt
          · exact absurd hpm (heq ▸ hp)
          · omega
        exact ⟨m, hnm1, hmt, hpm⟩

/-- C7: the readiness waiter returns true exactly when some probe attempt n,
made at elapsed time n times the fixed 100ms interval strictly before the
timeout, succeeds; and when every in-window probe fails it returns false. -/
theorem wait_for_gateway_iff (probe : Nat → Bool) (t : Nat) :
    (wait_for_gateway probe t = true ↔ ∃ n, n * 100 < t ∧ probe n = true) ∧
    ((∀ n, n * 100 < t → probe n = false) → wait_for_gateway probe t = false) := by
  have hbound : t ≤ (0 + (t / 100 + 1)) * 100 := by omega
  have h := wait_go_iff probe t (t / 100 + 1) 0 hbound
  have hiff : wait_for_gateway probe t = true ↔ ∃ n, n * 100 < t ∧ probe n = true := by
    unfold wait_for_gateway
    rw [h]
    constructor
    · rintro ⟨m, -, hmt, hpm⟩
      exact ⟨m, hmt, hpm⟩
    · rintro ⟨m, hmt, hpm⟩
      exact ⟨m, Nat.zero_le m, hmt, hpm⟩
  refine ⟨hiff, ?_⟩
  intro hall
  cases hw : wait_for_gateway probe t with
  | false => rfl
  | true =>
    exfalso
    rcases hiff.mp hw with ⟨m, hmt, hpm⟩
    have := hall m hmt
    rw [this] at hpm
    cases hpm

/-- Witness for C7: with a probe that always fails, the waiter reports
false at the 1 second timeout of the test sketch of the spec. -/
theorem wait_for_gateway_iff_witness :
    wait_for_gateway (fun _ => false) 1000 = false :=
  (wait_for_gateway_iff (fun _ => false) 1000).2 (fun _ _ => rfl)

/-- C3: an explicit-address start probes the address; on success it records
Connected{address, is_sidecar = false}, persists the address as configured,
and returns the connected status; on failure it returns an error message and
leaves the whole prior state, the configured address included, unchanged. -/
theorem start_gateway_explicit (probe : String → Bool) (fs : FS)
    (spawnRes : Except String Child) (probes : Nat → Bool) (url : String) (s : AppState) :
    (probe url = true →
       start_gateway probe fs spawnRes probes (some (some url)) s =
         ({ s with gateway_state := GatewayState.Connected url false,
                   gateway_url := some url },
          Except.ok { state := "connected", url := some url, is_sidecar := false,
                      error := none })) ∧
    (probe url = false →
       start_gateway probe fs spawnRes probes (some (some url)) s =
         (s, Except.error ("failed to connect to gateway at " ++ url))) := by
  constructor <;> intro h <;> simp [start_gateway, h]

/-- Witness for C3: a probe that accepts one address connects to it and
persists it, and rejects the other one without touching the fresh state. -/
theorem start_gateway_explicit_witness :
    start_gateway (fun u => u == "http://ok") fs_empty (Except.ok { pid := 1 })
        (fun _ => false) (some (some "http://ok")) demo_state =
      ({ demo_state with gateway_state := GatewayState.Connected "http://ok" false,
                         gateway_url := some "http://ok" },
       Except.ok { state := "connected", url := some "http://ok", is_sidecar := false,
                   error := none }) ∧
    start_gateway (fun u => u == "http://ok") fs_empty (Except.ok { pid := 1 })
        (fun _ => false) (some (some "http://bad")) demo_state =
      (demo_state, Except.error ("failed to connect to gateway at " ++ "http://bad")) :=
  ⟨(start_gateway_explicit (fun u => u == "http://ok") fs_empty (Except.ok { pid := 1 })
      (fun _ => false) "http://ok" demo_state).1 (by decide),
   (start_gateway_explicit (fun u => u == "http://ok") fs_empty (Except.ok { pid := 1 })
      (fun _ => false) "http://bad" demo_state).2 (by decide)⟩

/-- C4: when the binary is found and the process spawns but readiness never
succeeds within the startup timeout, bring-up runs the shutdown routine
(clearing the stored handle), records Failed with the startup-timeout
message, and returns that same error. -/
theorem start_sidecar_timeout (fs : FS) (spawnRes : Except String Child)
    (probes : Nat → Bool) (s : AppState) (p : String) (child : Child) :
    find_gateway_binary fs = Except.ok p →
    spawnRes = Except.ok child →
    wait_for_gateway probes GATEWAY_STARTUP_TIMEOUT_MS = false →
    start_sidecar fs spawnRes probes s =
      ({ s with gateway_state := GatewayState.Failed "gateway failed to start within timeout",
                sidecar_process := none },
       Except.error "gateway failed to start within timeout") := by
  intro hf hs hw
  subst hs
  simp [start_sidecar, hf, hw, stop_sidecar]

/-- Witness for C4: on a filesystem holding only the override binary, with a
spawn that succeeds and probes that never succeed, bring-up ends Failed with
the timeout message, the handle cleared and the error returned. -/
theorem start_sidecar_timeout_witness :
    find_gateway_binary fs_gw = Except.ok "/gw" ∧
    wait_for_gateway (fun _ => false) GATEWAY_STARTUP_TIMEOUT_MS = false ∧
    start_sidecar fs_gw (Except.ok { pid := 5 }) (fun _ => false) demo_state =
      ({ demo_state with
           gateway_state := GatewayState.Failed "gateway failed to start within timeout",
           sidecar_process := none },
       Except.error "gateway failed to start within timeout") :=
  ⟨rfl, by decide,
   start_sidecar_timeout fs_gw (Except.ok { pid := 5 }) (fun _ => false) demo_state
     "/gw" { pid := 5 } rfl rfl (by decide)⟩

/-- C8: a monitor tick in any state other than Connected{is_sidecar = true}
changes nothing, and a tick whose probe fails while the owned process is
still running also leaves the whole state, handle included, unchanged. -/
theorem monitor_sidecar_tick_noop (probe : String → Bool) (tw : TryWait) (fs : FS)
    (spawnRes : Except String Child) (probes : Nat → Bool) (s : AppState) :
    (is_sidecar_connected s.gateway_state = false →
       monitor_sidecar_tick probe tw fs spawnRes probes s = s) ∧
    (∀ url, s.gateway_state = GatewayState.Connected url true → probe url = false →
       tw = TryWait.running →
       monitor_sidecar_tick probe tw fs spawnRes probes s = s) := by
  constructor
  · intro h
    cases hg : s.gateway_state with
    | Disconnected => simp [monitor_sidecar_tick, hg]
    | Starting => simp [monitor_sidecar_tick, hg]
    | Failed e => simp [monitor_sidecar_tick, hg]
    | Connected url b =>
      cases b with
      | false => simp [monitor_sidecar_tick, hg]
      | true =>
        rw [hg] at h
        simp [is_sidecar_connected] at h
  · intro url hg hp htw
    subst htw
    cases hsp : s.sidecar_process <;> simp [monitor_sidecar_tick, hg, hp, hsp]

/-- Witness for C8: a tick on a Disconnected supervisor and a failing-probe
tick on a connected sidecar whose process still runs both change nothing. -/
theorem monitor_sidecar_tick_noop_witness :
    monitor_sidecar_tick (fun _ => false) TryWait.running fs_empty
      (Except.ok { pid := 1 }) (fun _ => false) demo_state = demo_state ∧
    monitor_sidecar_tick (fun _ => false) TryWait.running fs_empty
      (Except.ok { pid := 1 }) (fun _ => false) monitored_state = monitored_state :=
  ⟨(monitor_sidecar_tick_noop (fun _ => false) TryWait.running fs_empty
      (Except.ok { pid := 1 }) (fun _ => false) demo_state).1 rfl,
   (monitor_sidecar_tick_noop (fun _ => false) TryWait.running fs_empty
      (Except.ok { pid := 1 }) (fun _ => false) monitored_state).2
     "http://localhost:18790" rfl rfl rfl⟩

/-- Counterexample for C1 as stated: on a filesystem with no binary, the
sidecar start issued through the start command returns the locator error to
the caller, yet the state is left as Starting, not set to Failed. -/
theorem start_gateway_locator_failure_counterexample :
    (start_gateway (fun _ => false) fs_empty (Except.ok { pid := 1 })
        (fun _ => false) none demo_state).2 =
      Except.error "beacon-gateway binary not found" ∧
    (start_gateway (fun _ => false) fs_empty (Except.ok { pid := 1 })
        (fun _ => false) none demo_state).1.gateway_state = GatewayState.Starting ∧
    (start_gateway (fun _ => false) fs_empty (Except.ok { pid := 1 })
        (fun _ => false) none demo_state).1.gateway_state ≠
      GatewayState.Failed "beacon-gateway binary not found" := by
  refine ⟨rfl, rfl, ?_⟩
  intro h
  cases h

/-- C1 (amended): bring-up first sets the state to Starting; a locator
failure is returned as is and a spawn failure is returned wrapped, in both
cases through the start command as well, with the state left as Starting;
only the unattended auto-connect caller then records Failed with that
error. -/
theorem start_sidecar_failure_paths (probe : String → Bool) (fs : FS)
    (spawnRes : Except String Child) (probes : Nat → Bool) (s : AppState) :
    (∀ e, find_gateway_binary fs = Except.error e →
       start_sidecar fs spawnRes probes s =
         ({ s with gateway_state := GatewayState.Starting }, Except.error e) ∧
       start_gateway probe fs spawnRes probes none s =
         ({ s with gateway_state := GatewayState.Starting }, Except.error e) ∧
       (s.gateway_url = none →
          auto_connect probe fs spawnRes probes s =
            { s with gateway_state := GatewayState.Failed e })) ∧
    (∀ p e, find_gateway_binary fs = Except.ok p → spawnRes = Except.error e →
       start_sidecar fs spawnRes probes s =
         ({ s with gateway_state := GatewayState.Starting },
          Except.error ("failed to start gateway: " ++ e)) ∧
       start_gateway probe fs spawnRes probes none s =
         ({ s with gateway_state := GatewayState.Starting },
          Except.error ("failed to start gateway: " ++ e)) ∧
       (s.gateway_url = none →
          auto_connect probe fs spawnRes probes s =
            { s with gateway_state := GatewayState.Failed ("failed to start gateway: " ++ e) })) := by
  constructor
  · intro e hf
    refine ⟨?_, ?_, ?_⟩
    · simp [start_sidecar, hf]
    · simp [start_gateway, start_sidecar, hf]
    · intro hu
      simp [auto_connect, start_sidecar, hf, hu]
  · intro p e hf hs
    subst hs
    refine ⟨?_, ?_, ?_⟩
    · simp [start_sidecar, hf]
    · simp [start_gateway, start_sidecar, hf]
    · intro hu
      simp [auto_connect, start_sidecar, hf, hu]

/-- Witness for C1 (amended): with no binary on disk and no configured url,
the locator error is propagated by the start command with the state left as
Starting, and recorded as Failed by auto-connect. -/
theorem start_sidecar_failure_paths_witness :
    find_gateway_binary fs_empty = Except.error "beacon-gateway binary not found" ∧
    start_sidecar fs_empty (Except.ok { pid := 1 }) (fun _ => false)
        { demo_state with gateway_url := none } =
      ({ demo_state with gateway_url := none, gateway_state := GatewayState.Starting },
       Except.error "beacon-gateway binary not found") ∧
    auto_connect (fun _ => false) fs_empty (Except.ok { pid := 1 }) (fun _ => false)
        { demo_state with gateway_url := none } =
      { demo_state with gateway_url := none,
                        gateway_state := GatewayState.Failed "beacon-gateway binary not found" } := by
  have h := (start_sidecar_failure_paths (fun _ => false) fs_empty (Except.ok { pid := 1 })
    (fun _ => false) { demo_state with gateway_url := none }).1
    "beacon-gateway binary not found" rfl
  exact ⟨rfl, h.1, h.2.2 rfl⟩

/-- Bring-up always reestablishes the handle/state invariant, whatever state
it started from. -/
lemma handle_state_invariant_start_sidecar (fs : FS) (spawnRes : Except String Child)
    (probes : Nat → Bool) (s : AppState) :
    handle_state_invariant (start_sidecar fs spawnRes probes s).1 = true := by
  unfold start_sidecar
  cases hf : find_gateway_binary fs with
  | error e => simp [handle_state_invariant]
  | ok p =>
    cases spawnRes with
    | error e => simp [handle_state_invariant]
    | ok child =>
      by_cases hw : wait_for_gateway probes GATEWAY_STARTUP_TIMEOUT_MS = true
      · simp [hw, handle_state_invariant]
      · simp only [Bool.not_eq_true] at hw
        simp [hw, handle_state_invariant, stop_sidecar]

/-- A start command without an explicit url moves the state exactly as
bring-up does. -/
lemma start_gateway_sidecar_state (probe : String → Bool) (fs : FS)
    (spawnRes : Except String Child) (probes : Nat → Bool) (s : AppState)
    (request : Option (Option String)) (h : request = none ∨ request = some none) :
    (start_gateway probe fs spawnRes probes request s).1 =
      (start_sidecar fs spawnRes probes s).1 := by
  rcases h with rfl | rfl <;>
  · unfold start_gateway
    cases hres : start_sidecar fs spawnRes probes s with
    | mk s1 r => cases r <;> simp

/-- Every single start or stop operation preserves the handle/state
invariant. -/
lemma handle_state_invariant_step (s : AppState) (op : Op)
    (h : handle_state_invariant s = true) :
    handle_state_invariant (step s op) = true := by
  cases op with
  | stop =>
    cases hsp : s.sidecar_process <;>
      simp [step, stop_gateway, stop_sidecar, hsp, handle_state_invariant]
  | start probe fs spawnRes probes request =>
    cases request with
    | none =>
      rw [step, start_gateway_sidecar_state probe fs spawnRes probes s none (Or.inl rfl)]
      exact handle_state_invariant_start_sidecar fs spawnRes probes s
    | some u =>
      cases u with
      | none =>
        rw [step,
          start_gateway_sidecar_state probe fs spawnRes probes s (some none) (Or.inr rfl)]
        exact handle_state_invariant_start_sidecar fs spawnRes probes s
      | some url =>
        by_cases hp : probe url = true
        · simp [step, start_gateway, hp, handle_state_invariant]
        · simp only [Bool.not_eq_true] at hp
          simpa [step, start_gateway, hp] using h

/-- The invariant is preserved along any operation sequence. -/
lemma handle_state_invariant_run (ops : List Op) :
    ∀ s, handle_state_invariant s = true → handle_state_invariant (run s ops) = true := by
  induction ops with
  | nil => intro s h; exact h
  | cons op rest ih =>
    intro s h
    exact ih (step s op) (handle_state_invariant_step s op h)

/-- C2 (amended): after every sequence of start and stop operations from the
initial state, a child process handle is held only while the state is not
Disconnected, and the Connected{is_sidecar = true} state always holds a
handle; a handle may however remain held in Connected{is_sidecar = false},
reached by an explicit external connect while a sidecar runs. -/
theorem run_handle_state_invariant (defaultUrl dataDir : String) (ops : List Op) :
    handle_state_invariant (run (initial_state defaultUrl dataDir) ops) = true :=
  handle_state_invariant_run ops (initial_state defaultUrl dataDir) rfl

/-- Counterexample for C2 as stated: starting a sidecar and then issuing a
successful explicit external connect leaves the old child handle held while
the state is externally Connected (is_sidecar false). -/
theorem handle_held_while_external_counterexample :
    (run demo_state external_connect_ops).gateway_state =
      GatewayState.Connected "http://external:9999" false ∧
    (run demo_state external_connect_ops).sidecar_process = some { pid := 7 } := by
  constructor <;> rfl

end BeaconApp
